import Mathlib

/-!
Shallow embedding of the focusPet pet behavior/state engine
(src/shared/pet/pet-engine.ts) and the storage repair routine
(src/shared/storage/index.ts, StorageManager.validateAndRecoverPetState).

Numbers held in JS `number` fields that only ever carry integral values
(resources, treats, timestamps) are modelled as `Int`.  The mood average is
computed with real (here rational) division, as JS does.  Fields of the
persisted blob that may be absent (`null`/`undefined`) are modelled with
`Option`; the two numeric timestamp fields use the value `0` for the JS-falsy
case, since the source tests them with `!x` / `x || now`, which conflates
`0` and `undefined`.
-/

namespace FocusPet

/-- PetType from src/shared/types. -/
inductive PetType
  | cat | dog | dragon | penguin | bunny
deriving DecidableEq, Repr

/-- PetMood from src/shared/types. -/
inductive PetMood
  | happy | content | bored | neglected
deriving DecidableEq, Repr

/-- PetAnimation from src/shared/types. -/
inductive PetAnimation
  | idle | walk | sit | nap | play | excited | worried | sad
deriving DecidableEq, Repr

/-- Position from src/shared/types. -/
structure Position where
  x : Int
  y : Int
deriving DecidableEq, Repr

/-- PetState as the engine sees it (src/shared/types interface PetState):
all fields present.  `lastSatietyDecrease` is optional in the interface and
is read by the engine as `this.petState.lastSatietyDecrease || now`, so the
JS-falsy cases (absent, `0`) are modelled by the value `0`. -/
structure PetState where
  type : PetType
  name : String
  mood : PetMood
  happiness : Int
  energy : Int
  satiety : Int
  treats : Int
  unlockedAnimations : List PetAnimation
  accessories : List String
  position : Position
  currentAnimation : PetAnimation
  lastInteraction : Int
  lastSatietyDecrease : Int
deriving DecidableEq, Repr

/-- The shape of a pet-state record as read back from the durable store
(chrome.storage.local), before StorageManager.validateAndRecoverPetState has
normalised it: the store is an externally editable blob, so object-valued
fields may be missing (`none` models `null`/`undefined`, which are the only
JS-falsy values an array/object field can take; note an empty array is
truthy).  The two numeric timestamps use `0` for the falsy case, matching
the source's `!petState.lastInteraction` tests. -/
structure StoredPetState where
  type : PetType
  name : String
  mood : PetMood
  happiness : Int
  energy : Int
  satiety : Int
  treats : Int
  unlockedAnimations : Option (List PetAnimation)
  accessories : Option (List String)
  position : Option Position
  currentAnimation : Option PetAnimation
  lastInteraction : Int
  lastSatietyDecrease : Int
deriving DecidableEq, Repr

/-- The array the source assigns to a missing `unlockedAnimations` field:
`['idle', 'walk', 'sit', 'nap']`. -/
def defaultUnlockedAnimations : List PetAnimation :=
  [PetAnimation.idle, PetAnimation.walk, PetAnimation.sit, PetAnimation.nap]

/-- StorageManager.validateAndRecoverPetState (src/shared/storage/index.ts).
The imperative source mutates `petState` in place and accumulates a
`needsRecovery` flag; each `let` below is one of its statements, in source
order.  `needsRecovery` is exactly `corrupted-all-zero ∨ (one of the four
numeric fields was negative)`, with every test made on the incoming values
(each clamp fires precisely when its test on the original value fired). -/
def validateAndRecoverPetState (now : Int) (p0 : StoredPetState) : StoredPetState :=
  let needsRecovery : Prop :=
    (p0.happiness = 0 ∧ p0.satiety = 0 ∧ p0.energy = 0) ∨
    p0.happiness < 0 ∨ p0.satiety < 0 ∨ p0.energy < 0 ∨ p0.treats < 0
  let p1 := if p0.happiness < 0 then { p0 with happiness := 50 } else p0
  let p2 := if p1.satiety < 0 then { p1 with satiety := 50 } else p1
  let p3 := if p2.energy < 0 then { p2 with energy := 75 } else p2
  let p4 := if p3.treats < 0 then { p3 with treats := 3 } else p3
  let p5 :=
    if needsRecovery then
      { p4 with
        happiness := max p4.happiness 50
        satiety := max p4.satiety 50
        energy := max p4.energy 75
        treats := max p4.treats 3
        lastInteraction := now
        lastSatietyDecrease := now
        mood := PetMood.content }
    else p4
  let p6 :=
    if p5.unlockedAnimations = none then
      { p5 with unlockedAnimations := some defaultUnlockedAnimations }
    else p5
  let p7 := if p6.accessories = none then { p6 with accessories := some [] } else p6
  let p8 := if p7.position = none then { p7 with position := some ⟨100, 100⟩ } else p7
  let p9 :=
    if p8.currentAnimation = none then
      { p8 with currentAnimation := some PetAnimation.idle }
    else p8
  let p10 := if p9.lastInteraction = 0 then { p9 with lastInteraction := now } else p9
  if p10.lastSatietyDecrease = 0 then { p10 with lastSatietyDecrease := now } else p10

/-- The argument type of PetEngine.speak: 'pet' | 'feed' | 'wake' | 'nap'. -/
inductive SpeakContext
  | pet | feed | wake | nap
deriving DecidableEq, Repr

/-- One outward reaction message (a showSpeechBubble call).  The message text
is opaque for our purposes; we record which code path emitted it. -/
inductive Reaction
  | speech (ctx : SpeakContext)
  | reminder
deriving DecidableEq, Repr

/-- The PetEngine instance fields the embedded operations touch: the
in-memory pet state and the speech-cooldown checkpoint `lastSpeechTime`
(initially 0; `speechCooldown` is the constant 10000 ms). -/
structure EngineState where
  petState : PetState
  lastSpeechTime : Int
deriving DecidableEq, Repr

/-- PetEngine.speechCooldown = 10000 (10 seconds between speeches). -/
def speechCooldown : Int := 10000

/-- The mood computation of PetEngine.updateMood: the three-way average
(h + e + s) / 3, taken with real division as in JS (modelled in ℚ), against
the thresholds 80 / 60 / 40. -/
def moodOf (happiness energy satiety : Int) : PetMood :=
  let avgStats : ℚ := ((happiness : ℚ) + (energy : ℚ) + (satiety : ℚ)) / 3
  if 80 ≤ avgStats then PetMood.happy
  else if 60 ≤ avgStats then PetMood.content
  else if 40 ≤ avgStats then PetMood.bored
  else PetMood.neglected

/-- PetEngine.updateMood: recompute `mood` from the current stats. -/
def updateMood (p : PetState) : PetState :=
  { p with mood := moodOf p.happiness p.energy p.satiety }

/-- PetEngine.updatePetState.  At every engine call site the `updates`
object carries values the engine has already written into `this.petState`,
so the spread-merge is the identity on the in-memory state; what remains is
(a) the per-key negative-value validation on whichever numeric keys the
caller supplied (the four Booleans, in the source's check order happiness,
satiety, energy, treats), (b) the best-effort persist (external, succeeds in
this model), and (c) the final updateMood. -/
def updatePetState (hasHappiness hasSatiety hasEnergy hasTreats : Bool)
    (p : PetState) : PetState :=
  let q1 := if hasHappiness ∧ p.happiness < 0 then { p with happiness := 50 } else p
  let q2 := if hasSatiety ∧ q1.satiety < 0 then { q1 with satiety := 50 } else q1
  let q3 := if hasEnergy ∧ q2.energy < 0 then { q2 with energy := 75 } else q2
  let q4 := if hasTreats ∧ q3.treats < 0 then { q3 with treats := 3 } else q3
  updateMood q4

/-- PetEngine.setAnimation: enter `animation` only when it is a member of
`unlockedAnimations`; otherwise only log and leave the state untouched
(never throw).  The accepted branch writes `currentAnimation` and calls
updatePetState with no numeric keys. -/
def setAnimation (animation : PetAnimation) (p : PetState) : PetState :=
  if animation ∈ p.unlockedAnimations then
    updatePetState false false false false { p with currentAnimation := animation }
  else p

/-- PetEngine.performRandomBehavior: pick uniformly from ['sit', 'play'] and
enter it; `pickPlay` stands for the Math.random draw.  The deferred
setTimeout return-to-idle is a separate later event, outside the semantics
of the single call. -/
def performRandomBehavior (pickPlay : Bool) (p : PetState) : PetState :=
  setAnimation (if pickPlay then PetAnimation.play else PetAnimation.sit) p

/-- PetEngine.speak: a single cooldown timestamp (`lastSpeechTime`) gates
emission; within the window the call returns without any effect.  Past the
window, PetAI.generateResponse (a total template lookup, so the catch/
fallback branch is dead code) yields one message: `lastSpeechTime := now`,
one showSpeechBubble, and, when the response's `shouldAnimate` flag is set,
setAnimation 'excited' (its deferred return-to-idle again excluded). -/
def speak (now : Int) (shouldAnimate : Bool) (ctx : SpeakContext)
    (es : EngineState) : EngineState × List Reaction :=
  if now - es.lastSpeechTime < speechCooldown then (es, [])
  else
    let es1 : EngineState := { es with lastSpeechTime := now }
    let es2 :=
      if shouldAnimate then
        { es1 with petState := setAnimation PetAnimation.excited es1.petState }
      else es1
    (es2, [Reaction.speech ctx])

/-- PetEngine.interactWithPet: happiness += 10 capped at 100,
lastInteraction := now; if napping, wake excited and speak 'wake', else
enter a random one of ['excited', 'play'] (`pickPlay` is the draw) and
speak 'pet'; finally updatePetState with keys {happiness, lastInteraction}.
Deferred return-to-idle excluded. -/
def interactWithPet (now : Int) (pickPlay shouldAnimate : Bool)
    (es : EngineState) : EngineState × List Reaction :=
  let p0 : PetState :=
    { es.petState with
      happiness := min 100 (es.petState.happiness + 10)
      lastInteraction := now }
  let step :=
    if p0.currentAnimation = PetAnimation.nap then
      speak now shouldAnimate SpeakContext.wake
        { es with petState := setAnimation PetAnimation.excited p0 }
    else
      let anim := if pickPlay then PetAnimation.play else PetAnimation.excited
      speak now shouldAnimate SpeakContext.pet
        { es with petState := setAnimation anim p0 }
  ({ step.1 with petState := updatePetState true false false false step.1.petState },
    step.2)

/-- PetEngine.feedPet: nothing but a log when treats == 0 is reached
(`treats > 0` fails); otherwise treats -= 1, happiness += 15 and
satiety += 15, each capped at 100 and skipped entirely when already at the
cap, then setAnimation 'excited', speak 'feed', and updatePetState with keys
{treats, happiness, satiety}.  Deferred return-to-idle excluded. -/
def feedPet (now : Int) (shouldAnimate : Bool) (es : EngineState) :
    EngineState × List Reaction :=
  if 0 < es.petState.treats then
    let p1 : PetState := { es.petState with treats := es.petState.treats - 1 }
    let p2 :=
      if p1.happiness < 100 then
        { p1 with happiness := min 100 (p1.happiness + 15) }
      else p1
    let p3 :=
      if p2.satiety < 100 then
        { p2 with satiety := min 100 (p2.satiety + 15) }
      else p2
    let step :=
      speak now shouldAnimate SpeakContext.feed
        { es with petState := setAnimation PetAnimation.excited p3 }
    ({ step.1 with petState := updatePetState true true false true step.1.petState },
      step.2)
  else (es, [])

/-- PetEngine.addTreats: treats += count, then updatePetState with key
{treats}.  No reaction message, no animation change. -/
def addTreats (count : Int) (es : EngineState) : EngineState :=
  { es with
    petState :=
      updatePetState false false false true
        { es.petState with treats := es.petState.treats + count } }

/-- PetEngine.updatePetBehavior, one 30-second tick at time `now`.
`rollBehavior` stands for Math.random() < 0.3, `pickPlay` for the uniform
sit/play draw, `shouldAnimate` threads into speak for the 'nap' message.
Math.floor of a JS division is Int.fdiv.  The final updatePetState carries
keys {happiness, energy, satiety} (mood is not a numeric key). -/
def updatePetBehavior (now : Int) (rollBehavior pickPlay shouldAnimate : Bool)
    (es : EngineState) : EngineState × List Reaction :=
  let timeSinceInteraction := now - es.petState.lastInteraction
  let p0 :=
    if es.petState.happiness < 0 ∨ es.petState.satiety < 0 ∨ es.petState.energy < 0 then
      { es.petState with
        happiness := max es.petState.happiness 50
        satiety := max es.petState.satiety 50
        energy := max es.petState.energy 75 }
    else es.petState
  let p1 :=
    if 300000 < timeSinceInteraction then
      { p0 with happiness := max 0 (p0.happiness - 2) }
    else p0
  let branch :=
    if 300000 < timeSinceInteraction then
      let stepN :=
        if p1.currentAnimation ≠ PetAnimation.nap then
          speak now shouldAnimate SpeakContext.nap
            { es with petState := setAnimation PetAnimation.nap p1 }
        else ({ es with petState := p1 }, [])
      let idleMinutes := Int.fdiv timeSinceInteraction 60000
      let energyGain := min 3 idleMinutes
      ({ stepN.1 with
          petState :=
            { stepN.1.petState with
              energy := min 100 (stepN.1.petState.energy + energyGain) } },
        stepN.2)
    else
      let q1 := { p1 with energy := max 0 (p1.energy - 1) }
      let q2 :=
        if q1.currentAnimation = PetAnimation.nap then
          setAnimation PetAnimation.idle q1
        else q1
      let q3 :=
        if rollBehavior ∧ q2.currentAnimation ≠ PetAnimation.nap then
          performRandomBehavior pickPlay q2
        else q2
      (({ es with petState := q3 } : EngineState), ([] : List Reaction))
  let r0 := branch.1.petState
  let lastDecrease := if r0.lastSatietyDecrease = 0 then now else r0.lastSatietyDecrease
  let cyclesSinceLastDecrease := Int.fdiv (now - lastDecrease) 30000
  let r1 :=
    if 4 ≤ cyclesSinceLastDecrease then
      { r0 with satiety := max 0 (r0.satiety - 1), lastSatietyDecrease := now }
    else r0
  ({ branch.1 with petState := updatePetState true true true false (updateMood r1) },
    branch.2)

/-- PetEngine.reactToReminder: setAnimation 'excited' and showSpeechBubble
with the reminder's message, with no cooldown check (speak is not involved).
Deferred return-to-idle excluded. -/
def reactToReminder (es : EngineState) : EngineState × List Reaction :=
  ({ es with petState := setAnimation PetAnimation.excited es.petState },
    [Reaction.reminder])

/-! Frame lemmas for the engine operations. -/

@[simp]
lemma updateMood_happiness (p : PetState) : (updateMood p).happiness = p.happiness := rfl

@[simp]
lemma updateMood_energy (p : PetState) : (updateMood p).energy = p.energy := rfl

@[simp]
lemma updateMood_satiety (p : PetState) : (updateMood p).satiety = p.satiety := rfl

@[simp]
lemma updateMood_treats (p : PetState) : (updateMood p).treats = p.treats := rfl

@[simp]
lemma updateMood_currentAnimation (p : PetState) :
    (updateMood p).currentAnimation = p.currentAnimation := rfl

@[simp]
lemma updateMood_unlockedAnimations (p : PetState) :
    (updateMood p).unlockedAnimations = p.unlockedAnimations := rfl

@[simp]
lemma updateMood_lastInteraction (p : PetState) :
    (updateMood p).lastInteraction = p.lastInteraction := rfl

@[simp]
lemma updateMood_lastSatietyDecrease (p : PetState) :
    (updateMood p).lastSatietyDecrease = p.lastSatietyDecrease := rfl

@[simp]
lemma updateMood_mood (p : PetState) :
    (updateMood p).mood = moodOf p.happiness p.energy p.satiety := rfl

lemma updatePetState_false (p : PetState) :
    updatePetState false false false false p = updateMood p := by
  simp [updatePetState]

lemma updatePetState_eq (hH hS hE hT : Bool) (p : PetState) :
    updatePetState hH hS hE hT p =
      updateMood
        { p with
          happiness := if hH = true ∧ p.happiness < 0 then 50 else p.happiness
          satiety := if hS = true ∧ p.satiety < 0 then 50 else p.satiety
          energy := if hE = true ∧ p.energy < 0 then 75 else p.energy
          treats := if hT = true ∧ p.treats < 0 then 3 else p.treats } := by
  obtain ⟨ty, nm, md, h, e, s, t, ua, ac, pos, ca, li, lsd⟩ := p
  simp only [updatePetState]
  split_ifs <;> simp_all

@[simp]
lemma setAnimation_happiness (a : PetAnimation) (p : PetState) :
    (setAnimation a p).happiness = p.happiness := by
  simp [setAnimation, updatePetState_false]
  split <;> rfl

@[simp]
lemma setAnimation_energy (a : PetAnimation) (p : PetState) :
    (setAnimation a p).energy = p.energy := by
  simp [setAnimation, updatePetState_false]
  split <;> rfl

@[simp]
lemma setAnimation_satiety (a : PetAnimation) (p : PetState) :
    (setAnimation a p).satiety = p.satiety := by
  simp [setAnimation, updatePetState_false]
  split <;> rfl

@[simp]
lemma setAnimation_treats (a : PetAnimation) (p : PetState) :
    (setAnimation a p).treats = p.treats := by
  simp [setAnimation, updatePetState_false]
  split <;> rfl

@[simp]
lemma setAnimation_unlockedAnimations (a : PetAnimation) (p : PetState) :
    (setAnimation a p).unlockedAnimations = p.unlockedAnimations := by
  simp [setAnimation, updatePetState_false]
  split <;> rfl

@[simp]
lemma setAnimation_lastInteraction (a : PetAnimation) (p : PetState) :
    (setAnimation a p).lastInteraction = p.lastInteraction := by
  simp [setAnimation, updatePetState_false]
  split <;> rfl

@[simp]
lemma setAnimation_lastSatietyDecrease (a : PetAnimation) (p : PetState) :
    (setAnimation a p).lastSatietyDecrease = p.lastSatietyDecrease := by
  simp [setAnimation, updatePetState_false]
  split <;> rfl

lemma setAnimation_currentAnimation (a : PetAnimation) (p : PetState) :
    (setAnimation a p).currentAnimation =
      if a ∈ p.unlockedAnimations then a else p.currentAnimation := by
  simp [setAnimation, updatePetState_false]
  split <;> rfl

lemma setAnimation_mem (a : PetAnimation) (p : PetState)
    (h : p.currentAnimation ∈ p.unlockedAnimations) :
    (setAnimation a p).currentAnimation ∈ (setAnimation a p).unlockedAnimations := by
  rw [setAnimation_currentAnimation, setAnimation_unlockedAnimations]
  split <;> assumption

@[simp]
lemma speak_happiness (now : Int) (sa : Bool) (c : SpeakContext) (es : EngineState) :
    (speak now sa c es).1.petState.happiness = es.petState.happiness := by
  simp only [speak]
  split_ifs <;> simp

@[simp]
lemma speak_energy (now : Int) (sa : Bool) (c : SpeakContext) (es : EngineState) :
    (speak now sa c es).1.petState.energy = es.petState.energy := by
  simp only [speak]
  split_ifs <;> simp

@[simp]
lemma speak_satiety (now : Int) (sa : Bool) (c : SpeakContext) (es : EngineState) :
    (speak now sa c es).1.petState.satiety = es.petState.satiety := by
  simp only [speak]
  split_ifs <;> simp

@[simp]
lemma speak_treats (now : Int) (sa : Bool) (c : SpeakContext) (es : EngineState) :
    (speak now sa c es).1.petState.treats = es.petState.treats := by
  simp only [speak]
  split_ifs <;> simp

@[simp]
lemma speak_unlockedAnimations (now : Int) (sa : Bool) (c : SpeakContext) (es : EngineState) :
    (speak now sa c es).1.petState.unlockedAnimations =
      es.petState.unlockedAnimations := by
  simp only [speak]
  split_ifs <;> simp

@[simp]
lemma speak_lastInteraction (now : Int) (sa : Bool) (c : SpeakContext) (es : EngineState) :
    (speak now sa c es).1.petState.lastInteraction =
      es.petState.lastInteraction := by
  simp only [speak]
  split_ifs <;> simp

@[simp]
lemma speak_lastSatietyDecrease (now : Int) (sa : Bool) (c : SpeakContext) (es : EngineState) :
    (speak now sa c es).1.petState.lastSatietyDecrease =
      es.petState.lastSatietyDecrease := by
  simp only [speak]
  split_ifs <;> simp

lemma speak_currentAnimation (now : Int) (sa : Bool) (c : SpeakContext) (es : EngineState) :
    (speak now sa c es).1.petState.currentAnimation =
      if now - es.lastSpeechTime < speechCooldown then es.petState.currentAnimation
      else if sa = true then
        (setAnimation PetAnimation.excited es.petState).currentAnimation
      else es.petState.currentAnimation := by
  simp only [speak]
  split_ifs <;> simp_all

lemma speak_mem (now : Int) (sa : Bool) (c : SpeakContext) (es : EngineState)
    (h : es.petState.currentAnimation ∈ es.petState.unlockedAnimations) :
    (speak now sa c es).1.petState.currentAnimation ∈
      (speak now sa c es).1.petState.unlockedAnimations := by
  simp only [speak]
  split_ifs <;> simp_all
  simpa using setAnimation_mem PetAnimation.excited es.petState h

@[simp]
lemma updatePetState_currentAnimation (hH hS hE hT : Bool) (p : PetState) :
    (updatePetState hH hS hE hT p).currentAnimation = p.currentAnimation := by
  rw [updatePetState_eq]
  simp

@[simp]
lemma updatePetState_unlockedAnimations (hH hS hE hT : Bool) (p : PetState) :
    (updatePetState hH hS hE hT p).unlockedAnimations = p.unlockedAnimations := by
  rw [updatePetState_eq]
  simp

lemma updatePetState_mood_eq (hH hS hE hT : Bool) (p : PetState) :
    (updatePetState hH hS hE hT p).mood =
      moodOf (updatePetState hH hS hE hT p).happiness
        (updatePetState hH hS hE hT p).energy
        (updatePetState hH hS hE hT p).satiety := by
  rw [updatePetState_eq]
  simp

lemma updatePetState_mem (hH hS hE hT : Bool) (p : PetState)
    (h : p.currentAnimation ∈ p.unlockedAnimations) :
    (updatePetState hH hS hE hT p).currentAnimation ∈
      (updatePetState hH hS hE hT p).unlockedAnimations := by
  simpa using h

lemma mem_interactWithPet (now : Int) (pick sa : Bool) (es : EngineState)
    (h : es.petState.currentAnimation ∈ es.petState.unlockedAnimations) :
    (interactWithPet now pick sa es).1.petState.currentAnimation ∈
      (interactWithPet now pick sa es).1.petState.unlockedAnimations := by
  simp only [interactWithPet]
  split_ifs <;>
    · apply updatePetState_mem
      refine speak_mem _ _ _ _ ?_
      simpa using setAnimation_mem _ _ (by simpa using h)

lemma mem_feedPet (now : Int) (sa : Bool) (es : EngineState)
    (h : es.petState.currentAnimation ∈ es.petState.unlockedAnimations) :
    (feedPet now sa es).1.petState.currentAnimation ∈
      (feedPet now sa es).1.petState.unlockedAnimations := by
  simp only [feedPet]
  split_ifs <;> try exact h
  all_goals
    apply updatePetState_mem
    refine speak_mem _ _ _ _ ?_
    simpa using setAnimation_mem _ _ (by simpa using h)

lemma mem_addTreats (count : Int) (es : EngineState)
    (h : es.petState.currentAnimation ∈ es.petState.unlockedAnimations) :
    (addTreats count es).petState.currentAnimation ∈
      (addTreats count es).petState.unlockedAnimations := by
  simp only [addTreats]
  apply updatePetState_mem
  simpa using h

lemma mem_reactToReminder (es : EngineState)
    (h : es.petState.currentAnimation ∈ es.petState.unlockedAnimations) :
    (reactToReminder es).1.petState.currentAnimation ∈
      (reactToReminder es).1.petState.unlockedAnimations := by
  simp only [reactToReminder]
  exact setAnimation_mem _ _ h

lemma mem_updatePetBehavior (now : Int) (roll pick sa : Bool) (es : EngineState)
    (h : es.petState.currentAnimation ∈ es.petState.unlockedAnimations) :
    (updatePetBehavior now roll pick sa es).1.petState.currentAnimation ∈
      (updatePetBehavior now roll pick sa es).1.petState.unlockedAnimations := by
  obtain ⟨⟨ty, nm, md, hp, en, sat, tr, ua, ac, pos, ca, li, lsd⟩, lst⟩ := es
  simp only [EngineState.petState] at h ⊢
  simp only [updatePetBehavior, performRandomBehavior]
  apply updatePetState_mem
  simp only [updateMood_currentAnimation, updateMood_unlockedAnimations,
    apply_ite Prod.fst, apply_ite EngineState.petState,
    apply_ite PetState.currentAnimation, apply_ite PetState.unlockedAnimations,
    apply_ite PetState.lastSatietyDecrease,
    speak_currentAnimation, speak_unlockedAnimations, speak_lastSatietyDecrease,
    setAnimation_currentAnimation, setAnimation_unlockedAnimations,
    setAnimation_lastSatietyDecrease, ite_self]
  split_ifs <;> simp_all

@[simp]
lemma updatePetState_happiness (hH hS hE hT : Bool) (p : PetState) :
    (updatePetState hH hS hE hT p).happiness =
      if hH = true ∧ p.happiness < 0 then 50 else p.happiness := by
  rw [updatePetState_eq]
  rfl

@[simp]
lemma updatePetState_satiety (hH hS hE hT : Bool) (p : PetState) :
    (updatePetState hH hS hE hT p).satiety =
      if hS = true ∧ p.satiety < 0 then 50 else p.satiety := by
  rw [updatePetState_eq]
  rfl

@[simp]
lemma updatePetState_energy (hH hS hE hT : Bool) (p : PetState) :
    (updatePetState hH hS hE hT p).energy =
      if hE = true ∧ p.energy < 0 then 75 else p.energy := by
  rw [updatePetState_eq]
  rfl

@[simp]
lemma updatePetState_treats (hH hS hE hT : Bool) (p : PetState) :
    (updatePetState hH hS hE hT p).treats =
      if hT = true ∧ p.treats < 0 then 3 else p.treats := by
  rw [updatePetState_eq]
  rfl

/-- The bounded-resource invariant of the spec: happiness, energy and
satiety all lie in [0, 100]. -/
def StatsInRange (p : PetState) : Prop :=
  0 ≤ p.happiness ∧ p.happiness ≤ 100 ∧
  0 ≤ p.energy ∧ p.energy ≤ 100 ∧
  0 ≤ p.satiety ∧ p.satiety ≤ 100

instance (p : PetState) : Decidable (StatsInRange p) := by
  unfold StatsInRange
  infer_instance

lemma statsInRange_interactWithPet (now : Int) (pick sa : Bool) (es : EngineState)
    (h : StatsInRange es.petState) :
    StatsInRange (interactWithPet now pick sa es).1.petState := by
  obtain ⟨⟨ty, nm, md, hp, en, sat, tr, ua, ac, pos, ca, li, lsd⟩, lst⟩ := es
  obtain ⟨h1, h2, h3, h4, h5, h6⟩ := h
  simp only [EngineState.petState] at h1 h2 h3 h4 h5 h6
  unfold StatsInRange
  simp only [interactWithPet, updatePetState_happiness, updatePetState_energy,
    updatePetState_satiety, apply_ite Prod.fst, apply_ite EngineState.petState,
    apply_ite PetState.happiness, apply_ite PetState.energy, apply_ite PetState.satiety,
    speak_happiness, speak_energy, speak_satiety,
    setAnimation_happiness, setAnimation_energy, setAnimation_satiety, ite_self]
  split_ifs <;> simp_all

lemma statsInRange_feedPet (now : Int) (sa : Bool) (es : EngineState)
    (h : StatsInRange es.petState) :
    StatsInRange (feedPet now sa es).1.petState := by
  obtain ⟨⟨ty, nm, md, hp, en, sat, tr, ua, ac, pos, ca, li, lsd⟩, lst⟩ := es
  obtain ⟨h1, h2, h3, h4, h5, h6⟩ := h
  simp only [EngineState.petState] at h1 h2 h3 h4 h5 h6
  unfold StatsInRange
  simp only [feedPet, updatePetState_happiness, updatePetState_energy,
    updatePetState_satiety, apply_ite Prod.fst, apply_ite EngineState.petState,
    apply_ite PetState.happiness, apply_ite PetState.energy, apply_ite PetState.satiety,
    speak_happiness, speak_energy, speak_satiety,
    setAnimation_happiness, setAnimation_energy, setAnimation_satiety, ite_self]
  split_ifs <;> simp_all

lemma statsInRange_addTreats (count : Int) (es : EngineState)
    (h : StatsInRange es.petState) :
    StatsInRange (addTreats count es).petState := by
  obtain ⟨⟨ty, nm, md, hp, en, sat, tr, ua, ac, pos, ca, li, lsd⟩, lst⟩ := es
  obtain ⟨h1, h2, h3, h4, h5, h6⟩ := h
  simp only [EngineState.petState] at h1 h2 h3 h4 h5 h6
  unfold StatsInRange
  simp only [addTreats, updatePetState_happiness, updatePetState_energy,
    updatePetState_satiety]
  split_ifs <;> simp_all

set_option maxHeartbeats 2000000 in
lemma statsInRange_updatePetBehavior (now : Int) (roll pick sa : Bool)
    (es : EngineState) (h : StatsInRange es.petState) :
    StatsInRange (updatePetBehavior now roll pick sa es).1.petState := by
  obtain ⟨⟨ty, nm, md, hp, en, sat, tr, ua, ac, pos, ca, li, lsd⟩, lst⟩ := es
  obtain ⟨h1, h2, h3, h4, h5, h6⟩ := h
  simp only [EngineState.petState] at h1 h2 h3 h4 h5 h6
  have hmin : (min 3 (Int.fdiv (now - li) 60000) : Int) ≤ 3 := min_le_left _ _
  unfold StatsInRange
  simp only [updatePetBehavior, performRandomBehavior,
    updatePetState_happiness, updatePetState_energy, updatePetState_satiety,
    updateMood_happiness, updateMood_energy, updateMood_satiety,
    apply_ite Prod.fst, apply_ite EngineState.petState,
    apply_ite PetState.happiness, apply_ite PetState.energy,
    apply_ite PetState.satiety, apply_ite PetState.lastSatietyDecrease,
    speak_happiness, speak_energy, speak_satiety, speak_lastSatietyDecrease,
    setAnimation_happiness, setAnimation_energy, setAnimation_satiety,
    setAnimation_lastSatietyDecrease, ite_self]
  split_ifs <;> simp_all <;> omega

lemma mood_eq_updatePetBehavior (now : Int) (roll pick sa : Bool) (es : EngineState) :
    (updatePetBehavior now roll pick sa es).1.petState.mood =
      moodOf (updatePetBehavior now roll pick sa es).1.petState.happiness
        (updatePetBehavior now roll pick sa es).1.petState.energy
        (updatePetBehavior now roll pick sa es).1.petState.satiety := by
  simp only [updatePetBehavior]
  exact updatePetState_mood_eq _ _ _ _ _

lemma mood_eq_interactWithPet (now : Int) (pick sa : Bool) (es : EngineState) :
    (interactWithPet now pick sa es).1.petState.mood =
      moodOf (interactWithPet now pick sa es).1.petState.happiness
        (interactWithPet now pick sa es).1.petState.energy
        (interactWithPet now pick sa es).1.petState.satiety := by
  simp only [interactWithPet]
  exact updatePetState_mood_eq _ _ _ _ _

lemma mood_eq_feedPet (now : Int) (sa : Bool) (es : EngineState)
    (h : 0 < es.petState.treats) :
    (feedPet now sa es).1.petState.mood =
      moodOf (feedPet now sa es).1.petState.happiness
        (feedPet now sa es).1.petState.energy
        (feedPet now sa es).1.petState.satiety := by
  simp only [feedPet, if_pos h]
  exact updatePetState_mood_eq _ _ _ _ _

lemma mood_eq_addTreats (count : Int) (es : EngineState) :
    (addTreats count es).petState.mood =
      moodOf (addTreats count es).petState.happiness
        (addTreats count es).petState.energy
        (addTreats count es).petState.satiety := by
  simp only [addTreats]
  exact updatePetState_mood_eq _ _ _ _ _

/-- A concrete engine state used by the witness theorems: the default pet
created by StorageManager.initializeDefaults, placed at concrete
timestamps. -/
def specimenPet : PetState :=
  { type := PetType.cat
    name := "Whiskers"
    mood := PetMood.content
    happiness := 75
    energy := 100
    satiety := 100
    treats := 5
    unlockedAnimations := defaultUnlockedAnimations
    accessories := []
    position := ⟨100, 100⟩
    currentAnimation := PetAnimation.idle
    lastInteraction := 640000
    lastSatietyDecrease := 970000 }

/-- Specimen engine state wrapping `specimenPet`. -/
def specimenES : EngineState :=
  { petState := specimenPet, lastSpeechTime := 0 }

/-- C1: for every pet state whose happiness, energy and satiety lie in
[0,100], after any single engine operation (a behavior tick,
interactWithPet, feedPet, addTreats) the three resources still lie in
[0,100]: every mutation path clamps at the bounds. -/
theorem engine_ops_preserve_stat_bounds (now count : Int) (roll pick sa : Bool)
    (es : EngineState) (h : StatsInRange es.petState) :
    StatsInRange (updatePetBehavior now roll pick sa es).1.petState ∧
    StatsInRange (interactWithPet now pick sa es).1.petState ∧
    StatsInRange (feedPet now sa es).1.petState ∧
    StatsInRange (addTreats count es).petState :=
  ⟨statsInRange_updatePetBehavior now roll pick sa es h,
    statsInRange_interactWithPet now pick sa es h,
    statsInRange_feedPet now sa es h,
    statsInRange_addTreats count es h⟩

/-- Witness for C1 at the concrete specimen state. -/
theorem engine_ops_preserve_stat_bounds_witness :
    StatsInRange specimenES.petState ∧
    (StatsInRange (updatePetBehavior 1000000 false false false specimenES).1.petState ∧
      StatsInRange (interactWithPet 1000000 false false specimenES).1.petState ∧
      StatsInRange (feedPet 1000000 false specimenES).1.petState ∧
      StatsInRange (addTreats 3 specimenES).petState) :=
  ⟨by decide,
    engine_ops_preserve_stat_bounds 1000000 3 false false false specimenES (by decide)⟩

/-- C2: setAnimation with an animation that is not unlocked is ignored (the
state is returned unchanged, nothing is thrown), and every engine operation
preserves the invariant currentAnimation ∈ unlockedAnimations. -/
theorem currentAnimation_always_unlocked (now count : Int) (a : PetAnimation)
    (p : PetState) (roll pick sa : Bool) (es : EngineState)
    (hna : a ∉ p.unlockedAnimations)
    (hmem : es.petState.currentAnimation ∈ es.petState.unlockedAnimations) :
    setAnimation a p = p ∧
    ((updatePetBehavior now roll pick sa es).1.petState.currentAnimation ∈
      (updatePetBehavior now roll pick sa es).1.petState.unlockedAnimations) ∧
    ((interactWithPet now pick sa es).1.petState.currentAnimation ∈
      (interactWithPet now pick sa es).1.petState.unlockedAnimations) ∧
    ((feedPet now sa es).1.petState.currentAnimation ∈
      (feedPet now sa es).1.petState.unlockedAnimations) ∧
    ((addTreats count es).petState.currentAnimation ∈
      (addTreats count es).petState.unlockedAnimations) ∧
    ((reactToReminder es).1.petState.currentAnimation ∈
      (reactToReminder es).1.petState.unlockedAnimations) :=
  ⟨by simp [setAnimation, hna],
    mem_updatePetBehavior now roll pick sa es hmem,
    mem_interactWithPet now pick sa es hmem,
    mem_feedPet now sa es hmem,
    mem_addTreats count es hmem,
    mem_reactToReminder es hmem⟩

/-- Witness for C2: 'sad' is locked for the specimen, and the invariant is
preserved through each operation on the specimen state. -/
theorem currentAnimation_always_unlocked_witness :
    setAnimation PetAnimation.sad specimenPet = specimenPet ∧
    ((updatePetBehavior 1000000 false false false specimenES).1.petState.currentAnimation ∈
      (updatePetBehavior 1000000 false false false specimenES).1.petState.unlockedAnimations) ∧
    ((interactWithPet 1000000 false false specimenES).1.petState.currentAnimation ∈
      (interactWithPet 1000000 false false specimenES).1.petState.unlockedAnimations) ∧
    ((feedPet 1000000 false specimenES).1.petState.currentAnimation ∈
      (feedPet 1000000 false specimenES).1.petState.unlockedAnimations) ∧
    ((addTreats 3 specimenES).petState.currentAnimation ∈
      (addTreats 3 specimenES).petState.unlockedAnimations) ∧
    ((reactToReminder specimenES).1.petState.currentAnimation ∈
      (reactToReminder specimenES).1.petState.unlockedAnimations) :=
  currentAnimation_always_unlocked 1000000 3 PetAnimation.sad specimenPet
    false false false specimenES (by decide) (by decide)

/-- C3: mood is a pure function of (happiness, energy, satiety) with
avg = (happiness + energy + satiety)/3 and thresholds avg ≥ 80 → happy,
60 ≤ avg < 80 → content, 40 ≤ avg < 60 → bored, avg < 40 → neglected; and
it is recomputed after every resource mutation, regardless of history: a
tick, interactWithPet and addTreats leave mood equal to moodOf of the
resulting stats unconditionally, and feedPet does so whenever treats are
available (a treat-less feed mutates nothing, see C8). -/
theorem mood_is_pure_function_of_stats (now count : Int) (roll pick sa : Bool)
    (es : EngineState) (hp en st : Int) :
    ((80 ≤ ((hp : ℚ) + (en : ℚ) + (st : ℚ)) / 3 → moodOf hp en st = PetMood.happy) ∧
     (60 ≤ ((hp : ℚ) + (en : ℚ) + (st : ℚ)) / 3 ∧
        ((hp : ℚ) + (en : ℚ) + (st : ℚ)) / 3 < 80 →
        moodOf hp en st = PetMood.content) ∧
     (40 ≤ ((hp : ℚ) + (en : ℚ) + (st : ℚ)) / 3 ∧
        ((hp : ℚ) + (en : ℚ) + (st : ℚ)) / 3 < 60 →
        moodOf hp en st = PetMood.bored) ∧
     (((hp : ℚ) + (en : ℚ) + (st : ℚ)) / 3 < 40 →
        moodOf hp en st = PetMood.neglected)) ∧
    ((updatePetBehavior now roll pick sa es).1.petState.mood =
      moodOf (updatePetBehavior now roll pick sa es).1.petState.happiness
        (updatePetBehavior now roll pick sa es).1.petState.energy
        (updatePetBehavior now roll pick sa es).1.petState.satiety) ∧
    ((interactWithPet now pick sa es).1.petState.mood =
      moodOf (interactWithPet now pick sa es).1.petState.happiness
        (interactWithPet now pick sa es).1.petState.energy
        (interactWithPet now pick sa es).1.petState.satiety) ∧
    (0 < es.petState.treats →
      (feedPet now sa es).1.petState.mood =
        moodOf (feedPet now sa es).1.petState.happiness
          (feedPet now sa es).1.petState.energy
          (feedPet now sa es).1.petState.satiety) ∧
    ((addTreats count es).petState.mood =
      moodOf (addTreats count es).petState.happiness
        (addTreats count es).petState.energy
        (addTreats count es).petState.satiety) := by
  refine ⟨⟨?_, ?_, ?_, ?_⟩,
    mood_eq_updatePetBehavior now roll pick sa es,
    mood_eq_interactWithPet now pick sa es,
    fun htr => mood_eq_feedPet now sa es htr,
    mood_eq_addTreats count es⟩
  · intro h
    simp only [moodOf]
    rw [if_pos h]
  · rintro ⟨h1, h2⟩
    simp only [moodOf]
    rw [if_neg (not_le.mpr h2), if_pos h1]
  · rintro ⟨h1, h2⟩
    simp only [moodOf]
    rw [if_neg (not_le.mpr (lt_trans h2 (by norm_num))), if_neg (not_le.mpr h2), if_pos h1]
  · intro h
    simp only [moodOf]
    rw [if_neg (not_le.mpr (lt_trans h (by norm_num))),
      if_neg (not_le.mpr (lt_trans h (by norm_num))), if_neg (not_le.mpr h)]

/-- Witness for C3: concrete stats (90, 90, 90) average to 90 ≥ 80 and the
theorem yields mood happy; the feed conjunct is exercised at the specimen
state, which has treats available. -/
theorem mood_is_pure_function_of_stats_witness :
    moodOf 90 90 90 = PetMood.happy ∧
    (feedPet 1000000 false specimenES).1.petState.mood =
      moodOf (feedPet 1000000 false specimenES).1.petState.happiness
        (feedPet 1000000 false specimenES).1.petState.energy
        (feedPet 1000000 false specimenES).1.petState.satiety :=
  ⟨(mood_is_pure_function_of_stats 1000000 3 false false false specimenES
      90 90 90).1.1 (by norm_num),
    (mood_is_pure_function_of_stats 1000000 3 false false false specimenES
      90 90 90).2.2.2.1 (by decide)⟩

/-- C8: when treats == 0, feedPet is a no-op: the returned engine state
(all pet fields, the animation, the cooldown checkpoint) equals the input
state and no reaction message is emitted. -/
theorem feedPet_noop_when_no_treats (now : Int) (sa : Bool) (es : EngineState)
    (h : es.petState.treats = 0) : feedPet now sa es = (es, []) := by
  simp [feedPet, h]

/-- Witness for C8 at a concrete treat-less state. -/
theorem feedPet_noop_when_no_treats_witness :
    feedPet 1000000 false ⟨{ specimenPet with treats := 0 }, 0⟩ =
      (⟨{ specimenPet with treats := 0 }, 0⟩, []) :=
  feedPet_noop_when_no_treats 1000000 false ⟨{ specimenPet with treats := 0 }, 0⟩ rfl

lemma speak_snd (now : Int) (sa : Bool) (c : SpeakContext) (es : EngineState) :
    (speak now sa c es).2 =
      if now - es.lastSpeechTime < speechCooldown then [] else [Reaction.speech c] := by
  simp only [speak]
  split_ifs <;> rfl

lemma speak_fst_lastSpeechTime (now : Int) (sa : Bool) (c : SpeakContext) (es : EngineState) :
    (speak now sa c es).1.lastSpeechTime =
      if now - es.lastSpeechTime < speechCooldown then es.lastSpeechTime else now := by
  simp only [speak]
  split_ifs <;> rfl

/-- The engine state for the C5 counterexample: the shared cooldown is
active (lastSpeechTime = 995000, i.e. 5 s before the trigger times used). -/
def cexReminderES : EngineState :=
  { petState := specimenPet, lastSpeechTime := 995000 }

/-- Counterexample to C5 as stated: two reminder reactions fired at times
1000000 and 1000001 (1 ms apart, far less than the 10 s window, and while
the speak cooldown is still active, as the gated speak call shows) both
emit a message — reactToReminder calls showSpeechBubble directly and never
consults the cooldown timestamp. -/
theorem reaction_cooldown_counterexample :
    (speak 1000000 false SpeakContext.pet cexReminderES).2 = [] ∧
    (reactToReminder cexReminderES).2 = [Reaction.reminder] ∧
    (reactToReminder (reactToReminder cexReminderES).1).2 = [Reaction.reminder] := by
  decide

/-- C5 (amended): the single shared cooldown timestamp gates the reaction
messages that go through speak — the pet, feed, wake and nap triggers: two
speak-mediated triggers fired less than the 10 s window apart emit at most
one message between them.  Reminder reactions bypass speak and are emitted
unconditionally. -/
theorem speak_cooldown_two_triggers (t1 t2 : Int) (sa1 sa2 : Bool)
    (c1 c2 : SpeakContext) (es : EngineState) (h : t2 - t1 < speechCooldown) :
    (speak t1 sa1 c1 es).2.length +
      (speak t2 sa2 c2 (speak t1 sa1 c1 es).1).2.length ≤ 1 := by
  simp only [speak_snd, speak_fst_lastSpeechTime]
  split_ifs <;> simp_all [speechCooldown]

/-- Witness for C5 (amended): a pet trigger at t = 1000000 emits, and a feed
trigger 5 s later is gated, so the two calls emit one message. -/
theorem speak_cooldown_two_triggers_witness :
    (speak 1000000 false SpeakContext.pet specimenES).2.length +
      (speak 1005000 false SpeakContext.feed
        (speak 1000000 false SpeakContext.pet specimenES).1).2.length ≤ 1 :=
  speak_cooldown_two_triggers 1000000 1005000 false false
    SpeakContext.pet SpeakContext.feed specimenES (by decide)

/-- The engine state for the C6 counterexample: energy 50, last interaction
3 minutes (180000 ms) before the tick at now = 1000000. -/
def cexNapES : EngineState :=
  { petState := { specimenPet with energy := 50, lastInteraction := 820000 }
    lastSpeechTime := 0 }

/-- Counterexample to C6 as stated: with lastInteraction = now − 3 minutes
the tick does NOT enter nap (the source's nap threshold is 5 minutes, not
2–3): the pet stays idle and energy strictly decreases (50 → 49), so the
claimed conjunction fails at this input. -/
theorem nap_after_three_minutes_counterexample :
    (updatePetBehavior 1000000 false false false cexNapES).1.petState.currentAnimation =
      PetAnimation.idle ∧
    (updatePetBehavior 1000000 false false false cexNapES).1.petState.energy = 49 ∧
    ¬ ((updatePetBehavior 1000000 false false false cexNapES).1.petState.currentAnimation =
        PetAnimation.nap ∧
      cexNapES.petState.energy <
        (updatePetBehavior 1000000 false false false cexNapES).1.petState.energy) := by
  decide

/-- C6 (amended): the nap threshold is 5 minutes.  Given
lastInteraction = now − 6 minutes, currentAnimation ≠ nap with nap
unlocked, energy < 100 before the tick, and a speech response that does not
itself re-animate (shouldAnimate false), one tick leaves
currentAnimation = nap and strictly increases energy (by min(3,
idleMinutes), capped at 100). -/
theorem nap_after_idle_threshold (now : Int) (roll pick : Bool) (es : EngineState)
    (hli : es.petState.lastInteraction = now - 360000)
    (hca : es.petState.currentAnimation ≠ PetAnimation.nap)
    (hun : PetAnimation.nap ∈ es.petState.unlockedAnimations)
    (hen : es.petState.energy < 100) :
    (updatePetBehavior now roll pick false es).1.petState.currentAnimation =
      PetAnimation.nap ∧
    es.petState.energy < (updatePetBehavior now roll pick false es).1.petState.energy := by
  obtain ⟨⟨ty, nm, md, hp, en, sat, tr, ua, ac, pos, ca, li, lsd⟩, lst⟩ := es
  simp only [EngineState.petState] at hli hca hun hen
  subst hli
  have h360 : now - (now - 360000) = (360000 : Int) := by ring
  have hfd : Int.fdiv 360000 60000 = (6 : Int) := by decide
  simp only [updatePetBehavior, performRandomBehavior, h360,
    updatePetState_energy, updateMood_energy,
    apply_ite Prod.fst, apply_ite EngineState.petState,
    apply_ite PetState.currentAnimation, apply_ite PetState.energy,
    apply_ite PetState.lastSatietyDecrease,
    speak_currentAnimation, speak_energy, speak_lastSatietyDecrease,
    setAnimation_currentAnimation, setAnimation_energy,
    setAnimation_lastSatietyDecrease,
    updatePetState_currentAnimation, updateMood_currentAnimation, ite_self, hfd]
  split_ifs <;> simp_all <;> omega

/-- Witness for C6 (amended) at a concrete state idle for 6 minutes with
energy 50. -/
theorem nap_after_idle_threshold_witness :
    (updatePetBehavior 1000000 false false false
      ⟨{ specimenPet with energy := 50 }, 0⟩).1.petState.currentAnimation =
      PetAnimation.nap ∧
    ({ specimenPet with energy := 50 } : PetState).energy <
      (updatePetBehavior 1000000 false false false
        ⟨{ specimenPet with energy := 50 }, 0⟩).1.petState.energy :=
  nap_after_idle_threshold 1000000 false false ⟨{ specimenPet with energy := 50 }, 0⟩
    (by decide) (by decide) (by decide) (by decide)

/-- The recovery trigger of validateAndRecoverPetState: the all-zero
corruption check or any individually negative numeric field. -/
def NeedsRecovery (p : StoredPetState) : Prop :=
  (p.happiness = 0 ∧ p.satiety = 0 ∧ p.energy = 0) ∨
  p.happiness < 0 ∨ p.satiety < 0 ∨ p.energy < 0 ∨ p.treats < 0

instance (p : StoredPetState) : Decidable (NeedsRecovery p) := by
  unfold NeedsRecovery
  infer_instance

lemma vr_type (now : Int) (p : StoredPetState) :
    (validateAndRecoverPetState now p).type = p.type := by
  obtain ⟨ty, nm, md, hp, en, sat, tr, ua, ac, pos, ca, li, lsd⟩ := p
  simp only [validateAndRecoverPetState, apply_ite StoredPetState.type, ite_self]

lemma vr_name (now : Int) (p : StoredPetState) :
    (validateAndRecoverPetState now p).name = p.name := by
  obtain ⟨ty, nm, md, hp, en, sat, tr, ua, ac, pos, ca, li, lsd⟩ := p
  simp only [validateAndRecoverPetState, apply_ite StoredPetState.name, ite_self]

lemma vr_mood (now : Int) (p : StoredPetState) :
    (validateAndRecoverPetState now p).mood =
      if NeedsRecovery p then PetMood.content else p.mood := by
  obtain ⟨ty, nm, md, hp, en, sat, tr, ua, ac, pos, ca, li, lsd⟩ := p
  simp only [validateAndRecoverPetState, NeedsRecovery,
    apply_ite StoredPetState.mood, ite_self]

lemma vr_happiness (now : Int) (p : StoredPetState) :
    (validateAndRecoverPetState now p).happiness =
      if NeedsRecovery p then max p.happiness 50 else p.happiness := by
  obtain ⟨ty, nm, md, hp, en, sat, tr, ua, ac, pos, ca, li, lsd⟩ := p
  simp only [validateAndRecoverPetState, NeedsRecovery,
    apply_ite StoredPetState.happiness, ite_self]
  split_ifs <;> simp_all <;> omega

lemma vr_satiety (now : Int) (p : StoredPetState) :
    (validateAndRecoverPetState now p).satiety =
      if NeedsRecovery p then max p.satiety 50 else p.satiety := by
  obtain ⟨ty, nm, md, hp, en, sat, tr, ua, ac, pos, ca, li, lsd⟩ := p
  simp only [validateAndRecoverPetState, NeedsRecovery,
    apply_ite StoredPetState.satiety, ite_self]
  split_ifs <;> simp_all <;> omega

lemma vr_energy (now : Int) (p : StoredPetState) :
    (validateAndRecoverPetState now p).energy =
      if NeedsRecovery p then max p.energy 75 else p.energy := by
  obtain ⟨ty, nm, md, hp, en, sat, tr, ua, ac, pos, ca, li, lsd⟩ := p
  simp only [validateAndRecoverPetState, NeedsRecovery,
    apply_ite StoredPetState.energy, ite_self]
  split_ifs <;> simp_all <;> omega

lemma vr_treats (now : Int) (p : StoredPetState) :
    (validateAndRecoverPetState now p).treats =
      if NeedsRecovery p then max p.treats 3 else p.treats := by
  obtain ⟨ty, nm, md, hp, en, sat, tr, ua, ac, pos, ca, li, lsd⟩ := p
  simp only [validateAndRecoverPetState, NeedsRecovery,
    apply_ite StoredPetState.treats, ite_self]
  split_ifs <;> simp_all <;> omega

lemma vr_unlockedAnimations (now : Int) (p : StoredPetState) :
    (validateAndRecoverPetState now p).unlockedAnimations =
      if p.unlockedAnimations = none then some defaultUnlockedAnimations
      else p.unlockedAnimations := by
  obtain ⟨ty, nm, md, hp, en, sat, tr, ua, ac, pos, ca, li, lsd⟩ := p
  simp only [validateAndRecoverPetState,
    apply_ite StoredPetState.unlockedAnimations, ite_self]

lemma vr_accessories (now : Int) (p : StoredPetState) :
    (validateAndRecoverPetState now p).accessories =
      if p.accessories = none then some [] else p.accessories := by
  obtain ⟨ty, nm, md, hp, en, sat, tr, ua, ac, pos, ca, li, lsd⟩ := p
  simp only [validateAndRecoverPetState,
    apply_ite StoredPetState.accessories, ite_self]

lemma vr_position (now : Int) (p : StoredPetState) :
    (validateAndRecoverPetState now p).position =
      if p.position = none then some ⟨100, 100⟩ else p.position := by
  obtain ⟨ty, nm, md, hp, en, sat, tr, ua, ac, pos, ca, li, lsd⟩ := p
  simp only [validateAndRecoverPetState,
    apply_ite StoredPetState.position, ite_self]

lemma vr_currentAnimation (now : Int) (p : StoredPetState) :
    (validateAndRecoverPetState now p).currentAnimation =
      if p.currentAnimation = none then some PetAnimation.idle
      else p.currentAnimation := by
  obtain ⟨ty, nm, md, hp, en, sat, tr, ua, ac, pos, ca, li, lsd⟩ := p
  simp only [validateAndRecoverPetState,
    apply_ite StoredPetState.currentAnimation, ite_self]

lemma vr_lastInteraction (now : Int) (p : StoredPetState) :
    (validateAndRecoverPetState now p).lastInteraction =
      if NeedsRecovery p ∨ p.lastInteraction = 0 then now
      else p.lastInteraction := by
  obtain ⟨ty, nm, md, hp, en, sat, tr, ua, ac, pos, ca, li, lsd⟩ := p
  simp only [validateAndRecoverPetState, NeedsRecovery,
    apply_ite StoredPetState.lastInteraction, ite_self]
  split_ifs <;> simp_all <;> omega

lemma vr_lastSatietyDecrease (now : Int) (p : StoredPetState) :
    (validateAndRecoverPetState now p).lastSatietyDecrease =
      if NeedsRecovery p ∨ p.lastSatietyDecrease = 0 then now
      else p.lastSatietyDecrease := by
  obtain ⟨ty, nm, md, hp, en, sat, tr, ua, ac, pos, ca, li, lsd⟩ := p
  simp only [validateAndRecoverPetState, NeedsRecovery,
    apply_ite StoredPetState.lastSatietyDecrease, ite_self]
  split_ifs <;> simp_all <;> omega

attribute [ext] StoredPetState

/-- A stored record on which the repair function has nothing to do: numeric
fields non-negative and not all-zero, every object field present, both
timestamps non-falsy (or the clock itself is 0, in which case refreshing a
falsy timestamp writes the same value back). -/
lemma validateAndRecover_of_clean (now : Int) (p : StoredPetState)
    (h1 : 0 ≤ p.happiness) (h2 : 0 ≤ p.satiety) (h3 : 0 ≤ p.energy)
    (h4 : 0 ≤ p.treats)
    (h5 : ¬(p.happiness = 0 ∧ p.satiety = 0 ∧ p.energy = 0))
    (h6 : p.unlockedAnimations ≠ none) (h7 : p.accessories ≠ none)
    (h8 : p.position ≠ none) (h9 : p.currentAnimation ≠ none)
    (h10 : p.lastInteraction = 0 → now = 0)
    (h11 : p.lastSatietyDecrease = 0 → now = 0) :
    validateAndRecoverPetState now p = p := by
  have hrec : ¬ NeedsRecovery p := by
    unfold NeedsRecovery
    omega
  ext
  · rw [vr_type]
  · rw [vr_name]
  · rw [vr_mood, if_neg hrec]
  · rw [vr_happiness, if_neg hrec]
  · rw [vr_energy, if_neg hrec]
  · rw [vr_satiety, if_neg hrec]
  · rw [vr_treats, if_neg hrec]
  · rw [vr_unlockedAnimations, if_neg h6]
  · rw [vr_accessories, if_neg h7]
  · rw [vr_position, if_neg h8]
  · rw [vr_currentAnimation, if_neg h9]
  · rw [vr_lastInteraction]
    split_ifs with hc
    · rcases hc with hc | hc
      · exact absurd hc hrec
      · omega
    · rfl
  · rw [vr_lastSatietyDecrease]
    split_ifs with hc
    · rcases hc with hc | hc
      · exact absurd hc hrec
      · omega
    · rfl

/-- C7: the repair function is idempotent at any fixed clock value:
repairing an already-repaired state changes nothing. -/
theorem validateAndRecover_idempotent (now : Int) (p : StoredPetState) :
    validateAndRecoverPetState now (validateAndRecoverPetState now p) =
      validateAndRecoverPetState now p := by
  apply validateAndRecover_of_clean
  · rw [vr_happiness]
    unfold NeedsRecovery
    split_ifs <;> omega
  · rw [vr_satiety]
    unfold NeedsRecovery
    split_ifs <;> omega
  · rw [vr_energy]
    unfold NeedsRecovery
    split_ifs <;> omega
  · rw [vr_treats]
    unfold NeedsRecovery
    split_ifs <;> omega
  · rw [vr_happiness, vr_satiety, vr_energy]
    unfold NeedsRecovery
    split_ifs <;> omega
  · rw [vr_unlockedAnimations]
    split_ifs <;> simp_all
  · rw [vr_accessories]
    split_ifs <;> simp_all
  · rw [vr_position]
    split_ifs <;> simp_all
  · rw [vr_currentAnimation]
    split_ifs <;> simp_all
  · rw [vr_lastInteraction]
    split_ifs <;> omega
  · rw [vr_lastSatietyDecrease]
    split_ifs <;> omega

/-- C4: a state with happiness = satiety = energy = 0 is treated as
corrupted: repair resets happiness to 50, satiety to 50, energy to 75,
treats to max(previous, 3), mood to content, and refreshes both timestamp
checkpoints to now; in particular no resource in the result is 0. -/
theorem corrupted_all_zero_repair (now : Int) (p : StoredPetState)
    (hh : p.happiness = 0) (hs : p.satiety = 0) (he : p.energy = 0) :
    (validateAndRecoverPetState now p).happiness = 50 ∧
    (validateAndRecoverPetState now p).satiety = 50 ∧
    (validateAndRecoverPetState now p).energy = 75 ∧
    (validateAndRecoverPetState now p).treats = max p.treats 3 ∧
    (validateAndRecoverPetState now p).mood = PetMood.content ∧
    (validateAndRecoverPetState now p).lastInteraction = now ∧
    (validateAndRecoverPetState now p).lastSatietyDecrease = now ∧
    (validateAndRecoverPetState now p).happiness ≠ 0 ∧
    (validateAndRecoverPetState now p).satiety ≠ 0 ∧
    (validateAndRecoverPetState now p).energy ≠ 0 := by
  have hrec : NeedsRecovery p := Or.inl ⟨hh, hs, he⟩
  refine ⟨?_, ?_, ?_, ?_, ?_, ?_, ?_, ?_, ?_, ?_⟩
  · rw [vr_happiness, if_pos hrec, hh]
    rfl
  · rw [vr_satiety, if_pos hrec, hs]
    rfl
  · rw [vr_energy, if_pos hrec, he]
    rfl
  · rw [vr_treats, if_pos hrec]
  · rw [vr_mood, if_pos hrec]
  · rw [vr_lastInteraction, if_pos (Or.inl hrec)]
  · rw [vr_lastSatietyDecrease, if_pos (Or.inl hrec)]
  · rw [vr_happiness, if_pos hrec, hh]
    decide
  · rw [vr_satiety, if_pos hrec, hs]
    decide
  · rw [vr_energy, if_pos hrec, he]
    decide

/-- A fully-zeroed stored record, as in the spec's corruption-repair test
scenario. -/
def zeroedStored : StoredPetState :=
  { type := PetType.cat
    name := "Whiskers"
    mood := PetMood.happy
    happiness := 0
    energy := 0
    satiety := 0
    treats := 0
    unlockedAnimations := some defaultUnlockedAnimations
    accessories := some []
    position := some ⟨100, 100⟩
    currentAnimation := some PetAnimation.idle
    lastInteraction := 640000
    lastSatietyDecrease := 970000 }

/-- Witness for C4 at the all-zero stored record and clock 1000000. -/
theorem corrupted_all_zero_repair_witness :
    (validateAndRecoverPetState 1000000 zeroedStored).happiness = 50 ∧
    (validateAndRecoverPetState 1000000 zeroedStored).satiety = 50 ∧
    (validateAndRecoverPetState 1000000 zeroedStored).energy = 75 ∧
    (validateAndRecoverPetState 1000000 zeroedStored).treats = max zeroedStored.treats 3 ∧
    (validateAndRecoverPetState 1000000 zeroedStored).mood = PetMood.content ∧
    (validateAndRecoverPetState 1000000 zeroedStored).lastInteraction = 1000000 ∧
    (validateAndRecoverPetState 1000000 zeroedStored).lastSatietyDecrease = 1000000 ∧
    (validateAndRecoverPetState 1000000 zeroedStored).happiness ≠ 0 ∧
    (validateAndRecoverPetState 1000000 zeroedStored).satiety ≠ 0 ∧
    (validateAndRecoverPetState 1000000 zeroedStored).energy ≠ 0 :=
  corrupted_all_zero_repair 1000000 zeroedStored rfl rfl rfl

/-- C10: repair leaves well-formed states unchanged — non-negative
resources not all zero, non-negative treats, and every defaultable field
present (object fields non-null, timestamps non-zero) come back exactly as
they went in. -/
theorem repair_frames_wellformed_states (now : Int) (p : StoredPetState)
    (h1 : 0 ≤ p.happiness) (h2 : 0 ≤ p.satiety) (h3 : 0 ≤ p.energy)
    (h5 : ¬(p.happiness = 0 ∧ p.satiety = 0 ∧ p.energy = 0))
    (h4 : 0 ≤ p.treats)
    (h6 : p.unlockedAnimations ≠ none) (h7 : p.accessories ≠ none)
    (h8 : p.position ≠ none) (h9 : p.currentAnimation ≠ none)
    (h10 : p.lastInteraction ≠ 0) (h11 : p.lastSatietyDecrease ≠ 0) :
    validateAndRecoverPetState now p = p :=
  validateAndRecover_of_clean now p h1 h2 h3 h4 h5 h6 h7 h8 h9
    (fun h => absurd h h10) (fun h => absurd h h11)

/-- Witness for C10: a healthy stored record is returned untouched. -/
theorem repair_frames_wellformed_states_witness :
    validateAndRecoverPetState 1000000
        { zeroedStored with happiness := 75, energy := 100, satiety := 100, treats := 5 } =
      { zeroedStored with happiness := 75, energy := 100, satiety := 100, treats := 5 } :=
  repair_frames_wellformed_states 1000000
    { zeroedStored with happiness := 75, energy := 100, satiety := 100, treats := 5 }
    (by decide) (by decide) (by decide) (by decide) (by decide) (by decide)
    (by decide) (by decide) (by decide) (by decide) (by decide)

/-- A healthy stored record whose unlockedAnimations is present but empty
(an empty array is truthy in JS, so the default-fill does not fire). -/
def emptyAnimsStored : StoredPetState :=
  { zeroedStored with
    happiness := 75
    energy := 100
    satiety := 100
    treats := 5
    unlockedAnimations := some [] }

/-- Counterexample to C9 as stated: repair does not union the baseline
{idle, walk, sit} into a present unlockedAnimations list — a present empty
list stays empty (so the result is neither non-empty nor contains the
baseline), and a present list missing every baseline entry is returned
unchanged. -/
theorem unlockedAnimations_union_counterexample :
    (validateAndRecoverPetState 1000000 emptyAnimsStored).unlockedAnimations =
      some ([] : List PetAnimation) ∧
    (validateAndRecoverPetState 1000000
        { emptyAnimsStored with
          unlockedAnimations := some [PetAnimation.play] }).unlockedAnimations =
      some [PetAnimation.play] := by
  decide

/-- C9 (amended): repair only default-fills a missing (null/undefined)
unlockedAnimations field, setting it to ['idle', 'walk', 'sit', 'nap'] —
which is non-empty and contains the baseline {idle, walk, sit}; a present
list, even an empty one or one missing baseline entries, is returned
exactly as it came in (nothing removed, nothing unioned in). -/
theorem unlockedAnimations_default_fill (now : Int) (p : StoredPetState) :
    (p.unlockedAnimations = none →
      (validateAndRecoverPetState now p).unlockedAnimations =
        some defaultUnlockedAnimations ∧
      PetAnimation.idle ∈ defaultUnlockedAnimations ∧
      PetAnimation.walk ∈ defaultUnlockedAnimations ∧
      PetAnimation.sit ∈ defaultUnlockedAnimations) ∧
    (∀ l, p.unlockedAnimations = some l →
      (validateAndRecoverPetState now p).unlockedAnimations = some l) := by
  constructor
  · intro h
    rw [vr_unlockedAnimations, if_pos h]
    refine ⟨rfl, ?_, ?_, ?_⟩ <;> decide
  · intro l hl
    rw [vr_unlockedAnimations, if_neg (by simp [hl])]
    exact hl

/-- Witness for C9 (amended): a record missing unlockedAnimations receives
the default list, and one holding only 'play' keeps exactly that list. -/
theorem unlockedAnimations_default_fill_witness :
    (validateAndRecoverPetState 1000000
        { zeroedStored with happiness := 75, unlockedAnimations := none }).unlockedAnimations =
      some defaultUnlockedAnimations ∧
    (validateAndRecoverPetState 1000000
        { zeroedStored with
          happiness := 75
          unlockedAnimations := some [PetAnimation.play] }).unlockedAnimations =
      some [PetAnimation.play] :=
  ⟨((unlockedAnimations_default_fill 1000000
      { zeroedStored with happiness := 75, unlockedAnimations := none }).1 rfl).1,
    (unlockedAnimations_default_fill 1000000
      { zeroedStored with
        happiness := 75
        unlockedAnimations := some [PetAnimation.play] }).2 [PetAnimation.play] rfl⟩

end FocusPet
